import Mathlib

/-!
Shallow embedding of `tclip` (src/main.go and the linux build-tag file, where
`hasPrimary = true`).  External collaborators — the OS clipboard, the desktop
notifier, `golang.org/x/text/language.Parse`, `html.UnescapeString`, and the two
Google clients (classical translate and generative model) — are modelled by an
`Oracle` record of their results, keyed deterministically by the arguments the
program passes.  A run of `main` produces the list of observable events (calls
into collaborators, notifications, prints, the deferred close) together with an
`Outcome`: a normal return (exit code 0), a `log.Fatal` termination (non-zero
exit; `os.Exit` does NOT run deferred functions), or a runtime panic (which DOES
unwind deferred functions).
-/

namespace TClip

/-- Observable events of a run.  The notifier's icon and urgency arguments are
constant in the source and omitted.  `translateCall`, `detectCall` and
`supportedCall` record entry into the corresponding `GTranslate` method; the
`...Req` events record the actual request reaching the remote backend client. -/
inductive Event where
  | setPrimary (enabled : Bool)
  | createClient (useLLM : Bool)
  | translateCall (targetLang text : String)
  | detectCall (text : String)
  | supportedCall (targetLang : String)
  | nmtTranslateReq (lang text : String)
  | llmGenerateReq (text : String)
  | nmtDetectReq (text : String)
  | nmtSupportedReq (lang : String)
  | clipWrite (s : String)
  | notifyPush (title body : String)
  | printLine (s : String)
  | closeClient
deriving DecidableEq, Repr

/-- Result of a Go call in the embedding: a returned value, a returned `error`,
a `log.Fatal` inside the call (process exit, skips deferred functions), or a
runtime panic (unwinds deferred functions). -/
inductive Res (α : Type) where
  | ok (a : α)
  | err (e : String)
  | fatal (msg : String)
  | panicked (msg : String)
deriving DecidableEq, Repr

/-- Whether a `Res` is a returned Go `error`. -/
def Res.isErr {α : Type} : Res α → Bool
  | .err _ => true
  | _ => false

/-- How the process terminated. -/
inductive Outcome where
  | normal
  | fatal (msg : String)
  | panicked (msg : String)
deriving DecidableEq, Repr

/-- Results of all external collaborators, keyed by the arguments the program
passes them.  `parseLang` is `language.Parse` (canonical tag on success),
`unescape` is `html.UnescapeString`; `clipboardWrite` returns `some e` on a
write error and `none` on success; `nmtTranslate` yields the `.Text` fields of
the translation list; `llmGenerate` yields the parts of each candidate's
content; `nmtDetect` yields the `.Language` fields of the detection matrix;
`nmtSupported` yields `(Tag, Name)` pairs. -/
structure Oracle where
  parseLang : String → Except String String
  unescape : String → String
  clipboardRead : Except String String
  clipboardWrite : String → Option String
  genaiNew : Except String Unit
  translateNew : Except String Unit
  nmtTranslate : String → String → Except String (List String)
  llmGenerate : String → Except String (List (List String))
  nmtDetect : String → Except String (List (List String))
  nmtSupported : String → Except String (List (String × String))

/-- The `GTranslate` struct: which of the two client pointers is non-nil.
(The `llm` model and `ctx` fields carry no observable state here.) -/
structure GTranslate where
  nmtClient : Bool
  llmClient : Bool
deriving DecidableEq, Repr

/-- The constructor `createClientWithKey` (main.go:30-53).  In LLM mode a construction error
triggers `log.Fatal(err)` INSIDE the function; in classical mode the error is
returned to the caller. -/
def createClientWithKey (o : Oracle) (useLLM : Bool) : Res GTranslate :=
  if useLLM then
    match o.genaiNew with
    | .error e => .fatal e
    | .ok _ => .ok ⟨false, true⟩
  else
    match o.translateNew with
    | .error e => .err e
    | .ok _ => .ok ⟨true, false⟩

/-- The mode test `useLLM` (main.go:55-57). -/
def GTranslate.useLLM (gt : GTranslate) : Bool := gt.llmClient

/-- The method `translate` (main.go:68-90).  Indexing `resp[0]` (classical)
and `resp.Candidates[0].Content.Parts[0]` (LLM) panics on an empty response;
with both clients nil the source returns `("", err)` where `err` is the nil
error of the successful parse, i.e. a successful empty result. -/
def GTranslate.translate (gt : GTranslate) (o : Oracle) (targetLang text : String) :
    List Event × Res String :=
  let ev0 : List Event := [.translateCall targetLang text]
  match o.parseLang targetLang with
  | .error e => (ev0, .err e)
  | .ok lang =>
    if gt.nmtClient then
      match o.nmtTranslate lang text with
      | .error e => (ev0 ++ [.nmtTranslateReq lang text], .err e)
      | .ok [] => (ev0 ++ [.nmtTranslateReq lang text], .panicked "index out of range")
      | .ok (t :: _) => (ev0 ++ [.nmtTranslateReq lang text], .ok (o.unescape t))
    else if gt.llmClient then
      match o.llmGenerate text with
      | .error e => (ev0 ++ [.llmGenerateReq text], .err e)
      | .ok [] => (ev0 ++ [.llmGenerateReq text], .panicked "index out of range")
      | .ok ([] :: _) => (ev0 ++ [.llmGenerateReq text], .panicked "index out of range")
      | .ok ((p :: _) :: _) => (ev0 ++ [.llmGenerateReq text], .ok (o.unescape p))
    else (ev0, .ok "")

/-- The method `detect` (main.go:92-98).  It calls
`gt.nmtClient.DetectLanguage` unconditionally: with the classical client nil
(LLM mode) the method call dereferences a nil pointer — a runtime panic, never
a returned error.  Indexing `lang[0][0]` also panics on an empty response. -/
def GTranslate.detect (gt : GTranslate) (o : Oracle) (text : String) :
    List Event × Res String :=
  let ev0 : List Event := [.detectCall text]
  if gt.nmtClient then
    match o.nmtDetect text with
    | .error e => (ev0 ++ [.nmtDetectReq text], .err e)
    | .ok [] => (ev0 ++ [.nmtDetectReq text], .panicked "index out of range")
    | .ok ([] :: _) => (ev0 ++ [.nmtDetectReq text], .panicked "index out of range")
    | .ok ((d :: _) :: _) => (ev0 ++ [.nmtDetectReq text], .ok d)
  else (ev0, .panicked "invalid memory address or nil pointer dereference")

/-- Formatting of `%3d` by `fmt.Sprintf`: decimal, right-justified to width 3. -/
def fmtIndex (n : Nat) : String :=
  let s := toString n
  String.mk (List.replicate (3 - s.length) ' ') ++ s

/-- The `fmt.Printf("%3d - %s: %s\n", i, lang.Tag, lang.Name)` loop of
`SupportedLanguages` (main.go:110-112). -/
def printSupported (resp : List (String × String)) : List Event :=
  resp.enum.map fun p => .printLine (fmtIndex p.1 ++ " - " ++ p.2.1 ++ ": " ++ p.2.2)

/-- The method `SupportedLanguages` (main.go:100-116). -/
def GTranslate.SupportedLanguages (gt : GTranslate) (o : Oracle) (targetLang : String) :
    List Event × Res Unit :=
  let ev0 : List Event := [.supportedCall targetLang]
  match o.parseLang targetLang with
  | .error e => (ev0, .err e)
  | .ok lang =>
    if gt.nmtClient then
      match o.nmtSupported lang with
      | .error e => (ev0 ++ [.nmtSupportedReq lang], .err e)
      | .ok resp => (ev0 ++ [.nmtSupportedReq lang] ++ printSupported resp, .ok ())
    else (ev0, .err "The nmtClient was not intialized")

/-- The command-line flags (main.go:119-123): `-k`, `-l`, `-llm`, `-append`
(named `concat` in the source), `-list`. -/
structure Flags where
  known : String
  learn : String
  useLLM : Bool
  concat : Bool
  list : Bool
deriving DecidableEq, Repr

/-- Result of the translation phase: the translated text together with the
OUTER `det` variable as left for the final notification, or a terminal state. -/
inductive Phase where
  | ok (trans det : String)
  | fatal (msg : String)
  | panicked (msg : String)
deriving DecidableEq, Repr

/-- The translation phase of `main` (main.go:161-192).  In the classical
branch, `det, err := gTrans.detect(text)` (line 171) declares NEW `det` and
`err` variables scoped to that block, shadowing the outer ones; line 191's
`det = "from " + det` assigns the inner `det`, which dies at line 192, so the
outer `det` consumed by the final notification remains `""`.  In the LLM
branch line 169 assigns the outer `det` directly, so it becomes "with LLM". -/
def translatePhase (f : Flags) (o : Oracle) (gt : GTranslate) (text : String) :
    List Event × Phase :=
  if gt.useLLM then
    match gt.translate o f.known text with
    | (evs, .ok t) => (evs, .ok t "with LLM")
    | (evs, .err e) => (evs ++ [.notifyPush "Error" "Unable to translate the language"], .fatal e)
    | (evs, .fatal m) => (evs, .fatal m)
    | (evs, .panicked m) => (evs, .panicked m)
  else
    match gt.detect o text with
    | (evd, .err e) => (evd ++ [.notifyPush "Error" "Unable to detect the language"], .fatal e)
    | (evd, .fatal m) => (evd, .fatal m)
    | (evd, .panicked m) => (evd, .panicked m)
    | (evd, .ok det) =>
      if det = f.known then
        match gt.translate o f.learn text with
        | (evs, .ok t) => (evd ++ evs, .ok t "")
        | (evs, .err e) =>
            (evd ++ evs ++ [.notifyPush "Error" "Unable to translate the language"], .fatal e)
        | (evs, .fatal m) => (evd ++ evs, .fatal m)
        | (evs, .panicked m) => (evd ++ evs, .panicked m)
      else
        match gt.translate o f.known text with
        | (evs, .ok t) => (evd ++ evs, .ok t "")
        | (evs, .err e) =>
            (evd ++ evs ++ [.notifyPush "Error" "Unable to translate the language"], .fatal e)
        | (evs, .fatal m) => (evd ++ evs, .fatal m)
        | (evs, .panicked m) => (evd ++ evs, .panicked m)

/-- A whole run: the events observed and how the process ended. -/
structure Run where
  events : List Event
  outcome : Outcome
deriving DecidableEq, Repr

/-- The tail of `main` after the backend handle is constructed and `defer gTrans.close()`
is registered (main.go:156-203): the `list` early return (whose error is
discarded), the translation phase, primary-selection restore, optional append,
clipboard write and final notification. -/
def mainAfterInit (f : Flags) (o : Oracle) (gt : GTranslate) (text : String) : Run :=
  if f.list then
    match gt.SupportedLanguages o f.known with
    | (evs, _) => ⟨evs, .normal⟩
  else
    match translatePhase f o gt text with
    | (evs, .fatal m) => ⟨evs, .fatal m⟩
    | (evs, .panicked m) => ⟨evs, .panicked m⟩
    | (evs, .ok tr det) =>
      let trans2 := if f.concat then text ++ "\n---\n" ++ tr else tr
      match o.clipboardWrite trans2 with
      | some e => ⟨evs ++ [.setPrimary false, .clipWrite trans2], .fatal e⟩
      | none =>
          ⟨evs ++ [.setPrimary false, .clipWrite trans2,
            .notifyPush ("Translating " ++ det ++ ": " ++ text) trans2], .normal⟩

/-- The `defer gTrans.close()` of main.go:154: deferred functions run on a
normal return and during a panic unwind, but `log.Fatal` exits via `os.Exit`,
which skips them. -/
def applyDefer (r : Run) : Run :=
  match r.outcome with
  | .fatal _ => r
  | _ => ⟨r.events ++ [.closeClient], r.outcome⟩

/-- The function `main` (main.go:118-204) on the linux build (`hasPrimary = true`).  Note
the construction-failure hints (main.go:148-151): the GOOGLE hint is printed
when `useLLM` is true and the GEMINI hint when it is false — and the LLM-mode
constructor never returns an error at all, having already called `log.Fatal`
itself. -/
def main (f : Flags) (o : Oracle) : Run :=
  let ev0 : List Event := [.setPrimary true]
  match o.clipboardRead with
  | .error e => ⟨ev0 ++ [.notifyPush "Error reading the clipboard" e], .normal⟩
  | .ok text =>
    if text = "" then
      ⟨ev0 ++ [.notifyPush "Error" "No text selected"], .normal⟩
    else
      let ev1 := ev0 ++ [.createClient f.useLLM]
      match createClientWithKey o f.useLLM with
      | .fatal m => ⟨ev1, .fatal m⟩
      | .panicked m => ⟨ev1, .panicked m⟩
      | .err e =>
        if f.useLLM then
          ⟨ev1, .fatal (e ++ "\nMake sure you have set the GOOGLE_TRANSLATE_APIKEY environment variable")⟩
        else
          ⟨ev1, .fatal (e ++ "\nMake sure you have set the GEMINI_APIKEY environment variable")⟩
      | .ok gt =>
        let rest := mainAfterInit f o gt text
        applyDefer ⟨ev1 ++ rest.events, rest.outcome⟩

/-- A benign oracle used for concrete evaluations: every collaborator
succeeds, language parsing is the identity, detection answers "en". -/
def oracleBase : Oracle where
  parseLang := fun s => .ok s
  unescape := fun s => s
  clipboardRead := .ok "Hello"
  clipboardWrite := fun _ => none
  genaiNew := .ok ()
  translateNew := .ok ()
  nmtTranslate := fun l t => .ok [l ++ "|" ++ t]
  llmGenerate := fun t => .ok [[t ++ "|llm"]]
  nmtDetect := fun _ => .ok [["en"]]
  nmtSupported := fun _ => .ok [("en", "English")]

/-- Oracle on which both client constructors fail with message "boom". -/
def oracleAuthFail : Oracle :=
  { oracleBase with genaiNew := .error "boom", translateNew := .error "boom" }

/-- Oracle on which language detection fails with message "netfail". -/
def oracleDetectFail : Oracle :=
  { oracleBase with nmtDetect := fun _ => .error "netfail" }

/-- Oracle on which no string parses as a language tag. -/
def oracleBadLang : Oracle :=
  { oracleBase with parseLang := fun _ => .error "language: tag is not well-formed" }

/-- Oracle whose backends succeed but with empty response lists. -/
def oracleEmptyResp : Oracle :=
  { oracleBase with
      nmtTranslate := fun _ _ => .ok [],
      llmGenerate := fun _ => .ok [] }

/-- Oracle on which the clipboard cannot be read. -/
def oracleReadFail : Oracle :=
  { oracleBase with clipboardRead := .error "no clipboard" }

/-- Oracle on which the clipboard reads as the empty string. -/
def oracleEmptyClip : Oracle :=
  { oracleBase with clipboardRead := .ok "" }

/-- C2: the claim says the fatal construction-failure message names
GEMINI_APIKEY when useLLM is true and GOOGLE_TRANSLATE_APIKEY when useLLM is
false.  Evaluating the code: an LLM-mode construction failure dies inside
`createClientWithKey` with the bare error, naming no variable at all, and a
classical-mode failure is reported with the GEMINI_APIKEY hint — the two hints
are attached to the wrong modes (main.go:148-151). -/
theorem auth_hint_swapped :
    (main ⟨"en", "ko", true, false, false⟩ oracleAuthFail).outcome = .fatal "boom"
    ∧ (main ⟨"en", "ko", false, false, false⟩ oracleAuthFail).outcome =
        .fatal ("boom" ++ "\nMake sure you have set the GEMINI_APIKEY environment variable") := by
  exact ⟨rfl, rfl⟩

/-- C4: on a successful classical run (clipboard "Hello", detection "en",
known "en", learn "ko", append off) the final notification's title is
"Translating : Hello" — the detected-language label "from en" is assigned to
the shadowed inner `det` (main.go:171/191) and never reaches the outer `det`
used at main.go:203 — refuting the claim that the title contains "from "
followed by the detected code. -/
theorem classical_title_drops_detection_label :
    main ⟨"en", "ko", false, false, false⟩ oracleBase =
      ⟨[.setPrimary true, .createClient false, .detectCall "Hello", .nmtDetectReq "Hello",
        .translateCall "ko" "Hello", .nmtTranslateReq "ko" "Hello", .setPrimary false,
        .clipWrite "ko|Hello", .notifyPush "Translating : Hello" "ko|Hello",
        .closeClient], .normal⟩
    ∧ Event.notifyPush "Translating from en: Hello" "ko|Hello"
        ∉ (main ⟨"en", "ko", false, false, false⟩ oracleBase).events := by
  exact ⟨rfl, by decide⟩

/-- C3: a run that constructs the backend handle successfully and then dies
fatally (here: detection fails) never invokes close — `log.Fatal` exits via
`os.Exit`, which skips the deferred `gTrans.close()` — refuting "close() is
invoked exactly once on every exit path". -/
theorem close_skipped_on_fatal_exit :
    (main ⟨"en", "ko", false, false, false⟩ oracleDetectFail).outcome = .fatal "netfail"
    ∧ Event.closeClient ∉ (main ⟨"en", "ko", false, false, false⟩ oracleDetectFail).events := by
  exact ⟨rfl, by decide⟩

/-- Any event emitted by the translate method is its entry record or one of
its two backend requests, all on the given text. -/
theorem mem_translate_events (gt : GTranslate) (o : Oracle) (s t : String) (e : Event)
    (he : e ∈ (gt.translate o s t).1) :
    e = .translateCall s t ∨ (∃ lang, e = .nmtTranslateReq lang t) ∨ e = .llmGenerateReq t := by
  unfold GTranslate.translate at he
  cases hp : o.parseLang s <;> rw [hp] at he
  · simp_all <;> tauto
  · rename_i lang
    cases hn : gt.nmtClient <;> rw [hn] at he <;> simp only [Bool.false_eq_true, if_false,
      if_true, reduceIte] at he
    · cases hl : gt.llmClient <;> rw [hl] at he <;> simp only [Bool.false_eq_true, if_false,
        if_true, reduceIte] at he
      · simp_all <;> tauto
      · cases hg : o.llmGenerate t <;> rw [hg] at he
        · simp_all <;> tauto
        · rename_i resp
          match resp with
          | [] => simp_all <;> tauto
          | [] :: _ => simp_all <;> tauto
          | (p :: _) :: _ => simp_all <;> tauto
    · cases hg : o.nmtTranslate lang t <;> rw [hg] at he
      · simp_all <;> tauto
      · rename_i resp
        match resp with
        | [] => simp_all <;> tauto
        | r :: _ => simp_all <;> tauto

/-- Any event emitted by the detect method is its entry record or its backend
request, both on the given text. -/
theorem mem_detect_events (gt : GTranslate) (o : Oracle) (t : String) (e : Event)
    (he : e ∈ (gt.detect o t).1) :
    e = .detectCall t ∨ e = .nmtDetectReq t := by
  unfold GTranslate.detect at he
  cases hn : gt.nmtClient <;> rw [hn] at he <;> simp only [Bool.false_eq_true, if_false,
    if_true, reduceIte] at he
  · simp_all <;> tauto
  · cases hg : o.nmtDetect t <;> rw [hg] at he
    · simp_all <;> tauto
    · rename_i resp
      match resp with
      | [] => simp_all <;> tauto
      | [] :: _ => simp_all <;> tauto
      | (d :: _) :: _ => simp_all <;> tauto

/-- Any event emitted by the SupportedLanguages method is its entry record,
its backend request, or a printed catalog line. -/
theorem mem_supported_events (gt : GTranslate) (o : Oracle) (s : String) (e : Event)
    (he : e ∈ (gt.SupportedLanguages o s).1) :
    e = .supportedCall s ∨ (∃ lang, e = .nmtSupportedReq lang) ∨ ∃ str, e = .printLine str := by
  unfold GTranslate.SupportedLanguages at he
  cases hp : o.parseLang s <;> rw [hp] at he
  · simp_all <;> tauto
  · rename_i lang
    cases hn : gt.nmtClient <;> rw [hn] at he <;> simp only [Bool.false_eq_true, if_false,
      if_true, reduceIte] at he
    · simp_all <;> tauto
    · cases hg : o.nmtSupported lang <;> rw [hg] at he
      · simp_all <;> tauto
      · rename_i resp
        simp only [printSupported, List.append_assoc, List.mem_append, List.mem_singleton,
          List.mem_map] at he
        rcases he with h | h | ⟨p, _, h⟩
        · exact Or.inl h
        · exact Or.inr (Or.inl ⟨lang, h⟩)
        · exact Or.inr (Or.inr ⟨_, h.symm⟩)

/-- A successful LLM-mode construction yields the handle with only the
generative client set. -/
theorem createClient_llm_shape (o : Oracle) (gt : GTranslate)
    (h : createClientWithKey o true = .ok gt) : gt = ⟨false, true⟩ := by
  unfold createClientWithKey at h
  cases hg : o.genaiNew <;> rw [hg] at h <;> simp_all

/-- A successful classical-mode construction yields the handle with only the
classical client set. -/
theorem createClient_nmt_shape (o : Oracle) (gt : GTranslate)
    (h : createClientWithKey o false = .ok gt) : gt = ⟨true, false⟩ := by
  unfold createClientWithKey at h
  cases hg : o.translateNew <;> rw [hg] at h <;> simp_all

/-- Any event emitted by the translation phase comes from a translate call on
the known or learn code, from the detect call, or is one of the two error
notifications. -/
theorem mem_translatePhase_events (f : Flags) (o : Oracle) (gt : GTranslate) (t : String)
    (e : Event) (he : e ∈ (translatePhase f o gt t).1) :
    e ∈ (gt.translate o f.known t).1 ∨ e ∈ (gt.translate o f.learn t).1
    ∨ e ∈ (gt.detect o t).1
    ∨ e = .notifyPush "Error" "Unable to translate the language"
    ∨ e = .notifyPush "Error" "Unable to detect the language" := by
  unfold translatePhase at he
  cases hu : gt.useLLM <;> rw [hu] at he <;> simp only [Bool.false_eq_true, if_false,
    if_true, reduceIte] at he
  · rcases hd : gt.detect o t with ⟨evd, rd⟩
    rw [hd] at he
    have hevd : evd = (gt.detect o t).1 := by rw [hd]
    cases rd <;> simp only [] at he
    case ok det =>
      by_cases hdk : det = f.known <;> simp only [hdk, if_true, if_false, reduceIte] at he
      · rcases htr : gt.translate o f.learn t with ⟨evs, r⟩
        rw [htr] at he
        have hevs : evs = (gt.translate o f.learn t).1 := by rw [htr]
        cases r <;> simp_all <;> tauto
      · rcases htr : gt.translate o f.known t with ⟨evs, r⟩
        rw [htr] at he
        have hevs : evs = (gt.translate o f.known t).1 := by rw [htr]
        cases r <;> simp_all <;> tauto
    all_goals simp_all <;> tauto
  · rcases htr : gt.translate o f.known t with ⟨evs, r⟩
    rw [htr] at he
    have hevs : evs = (gt.translate o f.known t).1 := by rw [htr]
    cases r <;> simp_all <;> tauto

/-- In LLM mode the translation phase only ever emits events of the translate
call on the known code, or the translate-failure notification. -/
theorem mem_translatePhase_llm (f : Flags) (o : Oracle) (gt : GTranslate) (t : String)
    (e : Event) (hu : gt.useLLM = true) (he : e ∈ (translatePhase f o gt t).1) :
    e ∈ (gt.translate o f.known t).1
    ∨ e = .notifyPush "Error" "Unable to translate the language" := by
  unfold translatePhase at he
  rw [hu] at he
  simp only [if_true, reduceIte] at he
  rcases htr : gt.translate o f.known t with ⟨evs, r⟩
  rw [htr] at he
  have hevs : evs = (gt.translate o f.known t).1 := by rw [htr]
  cases r <;> simp_all <;> tauto

/-- Any event of the post-construction phase of main: the list path only emits
SupportedLanguages events; the translation path emits translation-phase
events, the primary-selection restore, the clipboard write, or the final
notification. -/
theorem mem_mainAfterInit (f : Flags) (o : Oracle) (gt : GTranslate) (text : String)
    (e : Event) (he : e ∈ (mainAfterInit f o gt text).events) :
    (f.list = true ∧ e ∈ (gt.SupportedLanguages o f.known).1)
    ∨ (f.list = false ∧
        (e ∈ (translatePhase f o gt text).1 ∨ e = .setPrimary false
         ∨ (∃ s, e = .clipWrite s) ∨ ∃ ti b, e = .notifyPush ti b)) := by
  unfold mainAfterInit at he
  cases hl : f.list <;> rw [hl] at he <;> simp only [Bool.false_eq_true, if_false,
    if_true, reduceIte] at he
  · rcases hp : translatePhase f o gt text with ⟨evs, ph⟩
    rw [hp] at he
    clear hp
    cases ph <;> simp only [] at he ⊢
    case ok tr det =>
      cases hw : o.clipboardWrite (if f.concat then text ++ "\n---\n" ++ tr else tr) <;>
        rw [hw] at he <;> aesop
    all_goals aesop
  · rcases hs : gt.SupportedLanguages o f.known with ⟨evs, r⟩
    rw [hs] at he
    clear hs
    aesop

/-- Any event of a whole run is the initial primary-selection set, a
notification, the client construction, the deferred close, or an event of the
post-construction phase (which exists only when the clipboard was readable and
non-empty and construction succeeded). -/
theorem mem_main (f : Flags) (o : Oracle) (e : Event) (he : e ∈ (main f o).events) :
    e = .setPrimary true ∨ (∃ ti b, e = .notifyPush ti b) ∨ e = .createClient f.useLLM
    ∨ e = .closeClient
    ∨ ∃ gt text, createClientWithKey o f.useLLM = .ok gt ∧ o.clipboardRead = .ok text
        ∧ text ≠ "" ∧ e ∈ (mainAfterInit f o gt text).events := by
  unfold main at he
  cases hr : o.clipboardRead <;> rw [hr] at he
  · aesop
  · rename_i text
    by_cases ht : text = "" <;> simp only [ht, if_true, if_false, reduceIte] at he
    · aesop
    · cases hc : createClientWithKey o f.useLLM <;> rw [hc] at he
      · rename_i gt
        cases ho : (mainAfterInit f o gt text).outcome <;>
          simp only [applyDefer, ho, List.append_assoc, List.mem_append, List.mem_cons,
            List.mem_singleton, List.not_mem_nil, or_false] at he <;>
          aesop
      all_goals aesop

/-- The post-construction phase never emits a close event itself. -/
theorem mainAfterInit_no_close (f : Flags) (o : Oracle) (gt : GTranslate) (text : String) :
    Event.closeClient ∉ (mainAfterInit f o gt text).events := by
  intro hc
  rcases mem_mainAfterInit f o gt text _ hc with ⟨_, h⟩ | ⟨_, h | h | h | h⟩
  · rcases mem_supported_events gt o f.known _ h with h | ⟨lang, h⟩ | ⟨str, h⟩ <;> simp_all
  · rcases mem_translatePhase_events f o gt text _ h with h | h | h | h | h
    · rcases mem_translate_events gt o f.known text _ h with h | ⟨lang, h⟩ | h <;> simp_all
    · rcases mem_translate_events gt o f.learn text _ h with h | ⟨lang, h⟩ | h <;> simp_all
    · rcases mem_detect_events gt o text _ h with h | h <;> simp_all
    · simp_all
    · simp_all
  · simp_all
  · simp_all
  · simp_all

/-- C3 (amended): after a successful backend construction, the deferred
close runs exactly once when the process exits normally or by panic unwind,
and zero times when it exits via `log.Fatal` (`os.Exit` skips deferred
functions). -/
theorem close_once_unless_fatal (f : Flags) (o : Oracle) (text : String) (gt : GTranslate)
    (hread : o.clipboardRead = .ok text) (hne : text ≠ "")
    (hmk : createClientWithKey o f.useLLM = .ok gt) :
    (main f o).events.count .closeClient =
      (match (main f o).outcome with | .fatal _ => 0 | _ => 1) := by
  have hnotin : Event.closeClient ∉
      [Event.setPrimary true, Event.createClient f.useLLM] ++
        (mainAfterInit f o gt text).events := by
    simp only [List.mem_append, List.mem_cons, List.mem_singleton, List.not_mem_nil, or_false]
    rintro ((h | h) | h)
    · exact absurd h (by simp)
    · exact absurd h (by simp)
    · exact mainAfterInit_no_close f o gt text h
  unfold main
  rw [hread]
  simp only [hne, if_false, reduceIte]
  rw [hmk]
  cases ho : (mainAfterInit f o gt text).outcome <;>
    simp only [applyDefer, ho, List.count_append, List.count_singleton_self] <;>
    rw [List.count_eq_zero.mpr (mainAfterInit_no_close f o gt text)] <;>
    simp [List.count_singleton]

/-- Witness for `close_once_unless_fatal` at a concrete classical run. -/
theorem close_once_unless_fatal_witness :
    oracleBase.clipboardRead = .ok "Hello" ∧ "Hello" ≠ ""
    ∧ createClientWithKey oracleBase false = .ok ⟨true, false⟩
    ∧ (main ⟨"en", "ko", false, false, false⟩ oracleBase).events.count .closeClient =
        (match (main ⟨"en", "ko", false, false, false⟩ oracleBase).outcome with
         | .fatal _ => 0 | _ => 1) :=
  ⟨rfl, by decide, rfl,
    close_once_unless_fatal ⟨"en", "ko", false, false, false⟩ oracleBase "Hello"
      ⟨true, false⟩ rfl (by decide) rfl⟩

/-- C1: in classical mode (list and append off), for a non-empty clipboard
text the run first detects the source language; with detected code `d` it
translates into `learn` when `d` equals `known` and into `known` otherwise,
and that translation — the translate method's result, the unescaped head of
the backend response — is exactly what is written to the clipboard. -/
theorem classical_detect_then_translate (f : Flags) (o : Oracle)
    (text d lang r : String) (ds rs : List String) (dss : List (List String))
    (huse : f.useLLM = false) (hlist : f.list = false) (hcat : f.concat = false)
    (hread : o.clipboardRead = .ok text) (hne : text ≠ "")
    (hnew : o.translateNew = .ok ())
    (hdet : o.nmtDetect text = .ok ((d :: ds) :: dss))
    (hparse : o.parseLang (if d = f.known then f.learn else f.known) = .ok lang)
    (htr : o.nmtTranslate lang text = .ok (r :: rs))
    (hwr : o.clipboardWrite (o.unescape r) = none) :
    main f o =
      ⟨[.setPrimary true, .createClient false, .detectCall text, .nmtDetectReq text,
        .translateCall (if d = f.known then f.learn else f.known) text,
        .nmtTranslateReq lang text, .setPrimary false, .clipWrite (o.unescape r),
        .notifyPush ("Translating : " ++ text) (o.unescape r), .closeClient],
       .normal⟩ := by
  unfold main
  rw [hread]
  simp only [hne, if_false, reduceIte]
  rw [huse]
  simp only [createClientWithKey, Bool.false_eq_true, if_false, reduceIte]
  rw [hnew]
  simp only [mainAfterInit, hlist, Bool.false_eq_true, if_false, reduceIte,
    translatePhase, GTranslate.useLLM, GTranslate.detect, GTranslate.translate, huse]
  rw [hdet]
  by_cases hd : d = f.known <;>
    simp only [hd, if_true, if_false, reduceIte] at hparse ⊢ <;>
    rw [hparse] <;>
    simp only [if_true, reduceIte] <;>
    rw [htr] <;>
    simp only [hcat, Bool.false_eq_true, if_false, reduceIte] <;>
    rw [hwr] <;>
    simp [applyDefer]

/-- Witness for `classical_detect_then_translate` on the base oracle:
detected "en" equals known, so the run translates into "ko". -/
theorem classical_detect_then_translate_witness :
    (⟨"en", "ko", false, false, false⟩ : Flags).useLLM = false
    ∧ oracleBase.nmtDetect "Hello" = .ok [["en"]]
    ∧ main ⟨"en", "ko", false, false, false⟩ oracleBase =
      ⟨[.setPrimary true, .createClient false, .detectCall "Hello", .nmtDetectReq "Hello",
        .translateCall (if "en" = "en" then "ko" else "en") "Hello",
        .nmtTranslateReq "ko" "Hello", .setPrimary false, .clipWrite (oracleBase.unescape "ko|Hello"),
        .notifyPush ("Translating : " ++ "Hello") (oracleBase.unescape "ko|Hello"), .closeClient],
       .normal⟩ :=
  ⟨rfl, rfl,
    classical_detect_then_translate ⟨"en", "ko", false, false, false⟩ oracleBase
      "Hello" "en" "ko" "ko|Hello" [] [] [] rfl rfl rfl rfl (by decide) rfl rfl
      (by simp [oracleBase]) rfl rfl⟩

/-- C7: a failed or empty clipboard read pushes a notification and returns
normally (exit code 0), with no client construction, no backend call and no
clipboard write — the full trace is just the primary-selection set and the
notification. -/
theorem empty_clipboard_early_return (f : Flags) (o : Oracle) :
    (∀ e, o.clipboardRead = .error e →
      main f o = ⟨[.setPrimary true, .notifyPush "Error reading the clipboard" e], .normal⟩)
    ∧ (o.clipboardRead = .ok "" →
      main f o = ⟨[.setPrimary true, .notifyPush "Error" "No text selected"], .normal⟩) := by
  constructor
  · intro e he
    unfold main
    rw [he]
    rfl
  · intro he
    unfold main
    rw [he]
    rfl

/-- Witness for `empty_clipboard_early_return` on the two failure oracles. -/
theorem empty_clipboard_early_return_witness :
    oracleReadFail.clipboardRead = .error "no clipboard"
    ∧ main ⟨"en", "ko", false, false, false⟩ oracleReadFail =
        ⟨[.setPrimary true, .notifyPush "Error reading the clipboard" "no clipboard"], .normal⟩
    ∧ oracleEmptyClip.clipboardRead = .ok ""
    ∧ main ⟨"en", "ko", false, false, false⟩ oracleEmptyClip =
        ⟨[.setPrimary true, .notifyPush "Error" "No text selected"], .normal⟩ :=
  ⟨rfl,
   (empty_clipboard_early_return ⟨"en", "ko", false, false, false⟩ oracleReadFail).1
     "no clipboard" rfl,
   rfl,
   (empty_clipboard_early_return ⟨"en", "ko", false, false, false⟩ oracleEmptyClip).2 rfl⟩

/-- C9: detect on an LLM-mode handle does not return an UnsupportedOperation
error — its result is a nil-pointer-dereference panic (the nil classical
client is called unconditionally at main.go:93), not a returned error. -/
theorem llm_detect_no_unsupported_error :
    ((GTranslate.mk false true).detect oracleBase "hello").2 =
      .panicked "invalid memory address or nil pointer dereference"
    ∧ (((GTranslate.mk false true).detect oracleBase "hello").2).isErr = false :=
  ⟨rfl, rfl⟩

/-- C9 (amended): for every oracle and text, detect on the LLM-mode handle
hits the nil classical client: a runtime panic, never an UnsupportedOperation
error (no such error value exists in the program). -/
theorem llm_detect_nil_dereference (o : Oracle) (text : String) :
    (GTranslate.mk false true).detect o text =
      ([.detectCall text], .panicked "invalid memory address or nil pointer dereference") := by
  rfl

/-- C10: translate takes the head of the backend response with no emptiness
check: an empty successful response (empty translation list, empty candidate
list, or empty part list) panics with an index-out-of-range, and a non-empty
successful response always lands in the ok branch carrying the unescaped
head, so the out-of-bounds branch is unreachable under the non-emptiness
precondition. -/
theorem translate_head_indexing (o : Oracle) (tgt text lang : String)
    (hp : o.parseLang tgt = .ok lang) :
    (o.nmtTranslate lang text = .ok [] →
        (GTranslate.mk true false).translate o tgt text =
          ([.translateCall tgt text, .nmtTranslateReq lang text],
           .panicked "index out of range"))
    ∧ (∀ r rs, o.nmtTranslate lang text = .ok (r :: rs) →
        (GTranslate.mk true false).translate o tgt text =
          ([.translateCall tgt text, .nmtTranslateReq lang text], .ok (o.unescape r)))
    ∧ (o.llmGenerate text = .ok [] →
        (GTranslate.mk false true).translate o tgt text =
          ([.translateCall tgt text, .llmGenerateReq text], .panicked "index out of range"))
    ∧ (∀ cs, o.llmGenerate text = .ok ([] :: cs) →
        (GTranslate.mk false true).translate o tgt text =
          ([.translateCall tgt text, .llmGenerateReq text], .panicked "index out of range"))
    ∧ (∀ p ps cs, o.llmGenerate text = .ok ((p :: ps) :: cs) →
        (GTranslate.mk false true).translate o tgt text =
          ([.translateCall tgt text, .llmGenerateReq text], .ok (o.unescape p))) := by
  refine ⟨fun h => ?_, fun r rs h => ?_, fun h => ?_, fun cs h => ?_, fun p ps cs h => ?_⟩ <;>
    simp [GTranslate.translate, hp, h]

/-- Witness for `translate_head_indexing`: the non-empty base oracle lands in
the ok branch; the empty-response oracle panics. -/
theorem translate_head_indexing_witness :
    oracleBase.parseLang "ko" = .ok "ko"
    ∧ (GTranslate.mk true false).translate oracleBase "ko" "Hi" =
        ([.translateCall "ko" "Hi", .nmtTranslateReq "ko" "Hi"],
         .ok (oracleBase.unescape "ko|Hi"))
    ∧ (GTranslate.mk true false).translate oracleEmptyResp "ko" "Hi" =
        ([.translateCall "ko" "Hi", .nmtTranslateReq "ko" "Hi"],
         .panicked "index out of range") :=
  ⟨rfl,
   (translate_head_indexing oracleBase "ko" "Hi" "ko" rfl).2.1 "ko|Hi" [] rfl,
   (translate_head_indexing oracleEmptyResp "ko" "Hi" "ko" rfl).1 rfl⟩

/-- C5: with the list flag set and a known code that does not parse, the run
terminates NORMALLY (exit code 0): main.go:157 discards the error returned by
SupportedLanguages — refuting "the run terminates fatally".  The trace shows
the call failed before any backend request was issued. -/
theorem list_invalid_code_exits_normally :
    main ⟨"!!", "ko", false, false, true⟩ oracleBadLang =
      ⟨[.setPrimary true, .createClient false, .supportedCall "!!", .closeClient],
       .normal⟩ := by
  rfl

/-- C5 (amended): an unparseable target code makes translate and
SupportedLanguages fail with the parse error before any backend request (the
returned event list holds only the method-entry record); on the translate
path main then terminates fatally after the error notification, but on the
list path the error is discarded and the run terminates normally. -/
theorem invalid_code_fails_before_backend (o : Oracle) (gt : GTranslate) (s text e : String)
    (hp : o.parseLang s = .error e) :
    gt.translate o s text = ([.translateCall s text], .err e)
    ∧ gt.SupportedLanguages o s = ([.supportedCall s], .err e)
    ∧ (∀ f : Flags, f.known = s → f.list = false → f.useLLM = true →
        o.clipboardRead = .ok text → text ≠ "" → o.genaiNew = .ok () →
        (main f o).outcome = .fatal e)
    ∧ (∀ f : Flags, f.known = s → f.list = true →
        o.clipboardRead = .ok text → text ≠ "" →
        createClientWithKey o f.useLLM = .ok gt →
        (main f o).outcome = .normal) := by
  refine ⟨?_, ?_, ?_, ?_⟩
  · unfold GTranslate.translate
    rw [hp]
  · unfold GTranslate.SupportedLanguages
    rw [hp]
  · intro f hk hlist huse hread hne hgen
    unfold main
    rw [hread]
    simp only [hne, if_false, reduceIte]
    rw [huse]
    simp only [createClientWithKey, if_true, reduceIte]
    rw [hgen]
    simp only [mainAfterInit, hlist, Bool.false_eq_true, if_false, reduceIte,
      translatePhase, GTranslate.useLLM, GTranslate.translate, huse, hk]
    rw [hp]
    simp [applyDefer]
  · intro f hk hlist hread hne hmk
    unfold main
    rw [hread]
    simp only [hne, if_false, reduceIte]
    rw [hmk]
    simp only [mainAfterInit, hlist, if_true, reduceIte]
    rcases hs : gt.SupportedLanguages o f.known with ⟨evs, r⟩
    simp [applyDefer]

/-- Witness for `invalid_code_fails_before_backend` on the bad-language
oracle: the translate path dies fatally, the list path exits normally. -/
theorem invalid_code_fails_before_backend_witness :
    oracleBadLang.parseLang "!!" = .error "language: tag is not well-formed"
    ∧ (main ⟨"!!", "ko", true, false, false⟩ oracleBadLang).outcome =
        .fatal "language: tag is not well-formed"
    ∧ (main ⟨"!!", "ko", false, false, true⟩ oracleBadLang).outcome = .normal :=
  ⟨rfl,
   (invalid_code_fails_before_backend oracleBadLang ⟨false, true⟩ "!!" "Hello"
      "language: tag is not well-formed" rfl).2.2.1
     ⟨"!!", "ko", true, false, false⟩ rfl rfl rfl rfl (by decide) rfl,
   (invalid_code_fails_before_backend oracleBadLang ⟨true, false⟩ "!!" "Hello"
      "language: tag is not well-formed" rfl).2.2.2
     ⟨"!!", "ko", false, false, true⟩ rfl rfl rfl (by decide) rfl⟩

/-- C6: in LLM mode every translate invocation targets the `known` code, and
the whole run is identical for any two values of the `learn` flag — `learn`
is never consulted on that path. -/
theorem llm_mode_ignores_learn (f : Flags) (o : Oracle) (huse : f.useLLM = true) :
    (∀ tgt txt, Event.translateCall tgt txt ∈ (main f o).events → tgt = f.known)
    ∧ ∀ l : String, main ⟨f.known, l, f.useLLM, f.concat, f.list⟩ o = main f o := by
  constructor
  · intro tgt txt hmem
    rcases mem_main f o _ hmem with h | ⟨ti, b, h⟩ | h | h | ⟨gt, text, hc, hr, ht, h⟩
    · simp_all
    · simp_all
    · simp_all
    · simp_all
    · rw [huse] at hc
      have hgt := createClient_llm_shape o gt hc
      subst hgt
      rcases mem_mainAfterInit f o _ text _ h with ⟨_, h2⟩ | ⟨_, h2 | h2 | h2 | h2⟩
      · rcases mem_supported_events _ o f.known _ h2 with h3 | ⟨lang, h3⟩ | ⟨str, h3⟩ <;>
          simp_all
      · rcases mem_translatePhase_llm f o ⟨false, true⟩ text _ rfl h2 with h3 | h3
        · rcases mem_translate_events _ o f.known text _ h3 with h4 | ⟨lang, h4⟩ | h4 <;>
            simp_all
        · simp_all
      · simp_all
      · simp_all
      · simp_all
  · intro l
    obtain ⟨k, l0, u, c, li⟩ := f
    replace huse : u = true := huse
    subst huse
    unfold main
    cases o.clipboardRead
    · rfl
    · rename_i t2
      by_cases ht2 : t2 = ""
      · subst ht2
        rfl
      · simp only [ht2, if_false, reduceIte]
        rcases hcc : createClientWithKey o true with gt | e | m | m
        · have hgt := createClient_llm_shape o gt hcc
          subst hgt
          rfl
        · rfl
        · rfl
        · rfl

/-- Witness for `llm_mode_ignores_learn`: changing learn from "ko" to "fr"
leaves the LLM-mode run unchanged. -/
theorem llm_mode_ignores_learn_witness :
    (⟨"en", "ko", true, false, false⟩ : Flags).useLLM = true
    ∧ main ⟨"en", "fr", true, false, false⟩ oracleBase =
        main ⟨"en", "ko", true, false, false⟩ oracleBase :=
  ⟨rfl, (llm_mode_ignores_learn ⟨"en", "ko", true, false, false⟩ oracleBase rfl).2 "fr"⟩

/-- C8: with the list flag set (clipboard readable and non-empty, handle
constructed) the run exits normally, never enters translate or detect, never
writes the clipboard, and — when the known code parses and the catalog call
succeeds on the classical client — prints exactly the enumerated supported
languages. -/
theorem list_mode_skips_translation (f : Flags) (o : Oracle) (text : String) (gt : GTranslate)
    (hlist : f.list = true)
    (hread : o.clipboardRead = .ok text) (hne : text ≠ "")
    (hmk : createClientWithKey o f.useLLM = .ok gt) :
    (main f o).outcome = .normal
    ∧ (∀ tgt txt, Event.translateCall tgt txt ∉ (main f o).events)
    ∧ (∀ txt, Event.detectCall txt ∉ (main f o).events)
    ∧ (∀ s, Event.clipWrite s ∉ (main f o).events)
    ∧ (∀ lang resp, o.parseLang f.known = .ok lang → o.nmtSupported lang = .ok resp →
        gt.nmtClient = true →
        (main f o).events =
          [.setPrimary true, .createClient f.useLLM, .supportedCall f.known,
           .nmtSupportedReq lang] ++ printSupported resp ++ [.closeClient]) := by
  refine ⟨?_, ?_, ?_, ?_, ?_⟩
  · unfold main
    rw [hread]
    simp only [hne, if_false, reduceIte]
    rw [hmk]
    simp only [mainAfterInit, hlist, if_true, reduceIte]
    rcases hs : gt.SupportedLanguages o f.known with ⟨evs, r⟩
    simp [applyDefer]
  · intro tgt txt hmem
    rcases mem_main f o _ hmem with h | ⟨ti, b, h⟩ | h | h | ⟨gt2, t2, hc2, hr2, ht2, h⟩
    · simp_all
    · simp_all
    · simp_all
    · simp_all
    · rcases mem_mainAfterInit f o gt2 t2 _ h with ⟨_, h2⟩ | ⟨hf, _⟩
      · rcases mem_supported_events gt2 o f.known _ h2 with h3 | ⟨lang, h3⟩ | ⟨str, h3⟩ <;>
          simp_all
      · simp_all
  · intro txt hmem
    rcases mem_main f o _ hmem with h | ⟨ti, b, h⟩ | h | h | ⟨gt2, t2, hc2, hr2, ht2, h⟩
    · simp_all
    · simp_all
    · simp_all
    · simp_all
    · rcases mem_mainAfterInit f o gt2 t2 _ h with ⟨_, h2⟩ | ⟨hf, _⟩
      · rcases mem_supported_events gt2 o f.known _ h2 with h3 | ⟨lang, h3⟩ | ⟨str, h3⟩ <;>
          simp_all
      · simp_all
  · intro s hmem
    rcases mem_main f o _ hmem with h | ⟨ti, b, h⟩ | h | h | ⟨gt2, t2, hc2, hr2, ht2, h⟩
    · simp_all
    · simp_all
    · simp_all
    · simp_all
    · rcases mem_mainAfterInit f o gt2 t2 _ h with ⟨_, h2⟩ | ⟨hf, _⟩
      · rcases mem_supported_events gt2 o f.known _ h2 with h3 | ⟨lang, h3⟩ | ⟨str, h3⟩ <;>
          simp_all
      · simp_all
  · intro lang resp hp hsup hn
    unfold main
    rw [hread]
    simp only [hne, if_false, reduceIte]
    rw [hmk]
    simp only [mainAfterInit, hlist, if_true, reduceIte, GTranslate.SupportedLanguages]
    rw [hp]
    simp only [hn, if_true, reduceIte]
    rw [hsup]
    simp [applyDefer]

/-- Witness for `list_mode_skips_translation` on the base oracle. -/
theorem list_mode_skips_translation_witness :
    (⟨"en", "ko", false, false, true⟩ : Flags).list = true
    ∧ (main ⟨"en", "ko", false, false, true⟩ oracleBase).outcome = .normal
    ∧ (main ⟨"en", "ko", false, false, true⟩ oracleBase).events =
        [.setPrimary true, .createClient false, .supportedCall "en",
         .nmtSupportedReq "en"] ++ printSupported [("en", "English")] ++ [.closeClient] :=
  ⟨rfl,
   (list_mode_skips_translation ⟨"en", "ko", false, false, true⟩ oracleBase "Hello"
      ⟨true, false⟩ rfl rfl (by decide) rfl).1,
   (list_mode_skips_translation ⟨"en", "ko", false, false, true⟩ oracleBase "Hello"
      ⟨true, false⟩ rfl rfl (by decide) rfl).2.2.2.2 "en" [("en", "English")] rfl rfl rfl⟩

end TClip
